import Mathlib

/-!
Shallow embedding of the stanford-ai-assistant repository (src/double.py,
src/new-frontend.py, src/try2.py): the assistant round-trip polling loop,
the dual-assistant routing in process_user_query, the Google-Sheets
interaction logger, the header-seeding step, the login gate, and the
response-cleaning step of the styled variant.

Conventions of the embedding:
* The hosted-AI backend and the spreadsheet backend are external services;
  they are modelled by explicit parameters (status streams, reply oracles,
  an explicit sheet state) passed to the embedded functions.
* Python exceptions become `Except String`; a Python function that catches
  all exceptions internally becomes a total Lean function.
* The unbounded `while True` polling loops become fuel-indexed functions:
  `none` means the loop has not yet terminated after the given number of
  polls, so non-termination is the statement that every fuel yields `none`.
-/

/-! ## Run-status polling loops -/

/-- Outcome of the `run_assistant` polling loop of double.py (lines 170-179)
and new-frontend.py (lines 394-403): the loop `break`s when the polled
status is the string `completed` and raises when it is `failed`. -/
inductive PollOutcome where
  | completedAt (n : Nat)
  | failedAt (n : Nat)
deriving DecidableEq, Repr

/-- The `while True` polling loop of `run_assistant` (double.py lines
170-179, new-frontend.py lines 394-403).  `status n` is the status string
returned by the n-th `runs.retrieve` call.  `fuel` bounds the number of
polls that have happened so far; `none` means the loop is still running
after `fuel` polls.  On status `completed` the loop breaks (normal return),
on `failed` it raises `Exception("Assistant run failed")`, on anything else
it sleeps 0.5 s and polls again. -/
def run_assistant_poll (status : Nat → String) : Nat → Nat → Option PollOutcome
  | 0, _ => none
  | fuel + 1, k =>
    if status k = "completed" then some (PollOutcome.completedAt k)
    else if status k = "failed" then some (PollOutcome.failedAt k)
    else run_assistant_poll status fuel (k + 1)

/-- Total milliseconds spent in `time.sleep(0.5)` calls by the
`run_assistant` polling loop across the first `fuel` polls starting at poll
index `k`: each non-terminal poll is followed by a fixed 500 ms sleep. -/
def run_assistant_wait_ms (status : Nat → String) : Nat → Nat → Nat
  | 0, _ => 0
  | fuel + 1, k =>
    if status k = "completed" then 0
    else if status k = "failed" then 0
    else 500 + run_assistant_wait_ms status fuel (k + 1)

/-- The polling loop of try2.py `main_app` (lines 230-235):
`while run.status in ["queued", "in_progress"]: run = retrieve(...);
time.sleep(0.5)`.  `status 0` is the status of the freshly created run and
`status (n+1)` the result of the n-th retrieve.  The loop exits normally
(result `some k`, continuing to the message fetch) as soon as the status is
anything other than `queued` or `in_progress` — including `failed`, which
is not raised here. -/
def try2_poll (status : Nat → String) : Nat → Nat → Option Nat
  | 0, _ => none
  | fuel + 1, k =>
    if status k = "queued" ∨ status k = "in_progress" then
      try2_poll status fuel (k + 1)
    else some k

/-! ## Message fetching after a completed run -/

/-- A message in a conversation thread: an opaque id and its text content
(`content[0].text.value`).  A thread is a `List Msg` in chronological
order (oldest first). -/
structure Msg where
  id : Nat
  text : String
deriving DecidableEq, Repr

/-- `client.beta.threads.messages.list(thread_id, order="desc", limit=1)`
on a chronological thread: at most one message, the newest. -/
def list_desc_limit1 (thread : List Msg) : List Msg :=
  match thread.getLast? with
  | none => []
  | some m => [m]

/-- The message fetch at the end of `run_assistant` (double.py lines
181-187): `messages.data[0].content[0].text.value` of the desc/limit-1
listing; `none` models the IndexError on an empty thread. -/
def run_assistant_fetch (thread : List Msg) : Option String :=
  (list_desc_limit1 thread).head?.map Msg.text

/-- `client.beta.threads.messages.list(thread_id, order="asc",
after=message.id)` from try2.py lines 238-242: the chronological suffix of
the thread strictly after the message with the given id. -/
def list_asc_after (thread : List Msg) (afterId : Nat) : List Msg :=
  (thread.dropWhile (fun m => m.id != afterId)).drop 1

/-- The message fetch of try2.py `main_app` (lines 237-247): list asc after
the just-created user message, and if `messages.data` is non-empty take
`messages.data[0]` — the OLDEST message after the user message; `none`
models the `if messages.data:` guard failing (nothing displayed). -/
def try2_fetch (thread : List Msg) (afterId : Nat) : Option String :=
  (list_asc_after thread afterId).head?.map Msg.text

/-! ## Python `str.strip()` and `int()` on strings -/

/-- `str.strip()`: drop whitespace from both ends of the character list.
(Lean's `Char.isWhitespace` covers space, tab, CR, LF; the extra unicode
whitespace CPython also strips is out of scope of the embedding.) -/
def py_strip (cs : List Char) : List Char :=
  ((cs.dropWhile Char.isWhitespace).reverse.dropWhile Char.isWhitespace).reverse

/-- `str.strip()` as a `String` operation. -/
def py_strip_str (s : String) : String := String.mk (py_strip s.toList)

/-- Value of an ASCII decimal digit. -/
def pyDigitValue (c : Char) : Nat := c.toNat - 48

/-- Digits of a Python int literal after the first digit: decimal digits
with single underscores allowed between digits. -/
def pyDigitsAux (acc : Nat) : List Char → Option Nat
  | [] => some acc
  | c :: rest =>
    if c.isDigit then pyDigitsAux (10 * acc + pyDigitValue c) rest
    else if c = '_' then
      match rest with
      | [] => none
      | d :: rest2 =>
        if d.isDigit then pyDigitsAux (10 * acc + pyDigitValue d) rest2
        else none
    else none

/-- An unsigned Python int literal: one or more decimal digits, with
single underscores allowed between digits (`int("1_0") = 10`). -/
def pyUnsigned : List Char → Option Nat
  | [] => none
  | c :: rest => if c.isDigit then pyDigitsAux (pyDigitValue c) rest else none

/-- Python `int(s)` for a decimal string: surrounding whitespace stripped,
optional single `+`/`-` sign, then a digit/underscore literal.  `none`
models the `ValueError` raised on anything else.  (Non-ASCII digits and
exotic unicode whitespace accepted by CPython are out of scope of the
embedding.) -/
def python_int (s : String) : Option Int :=
  match py_strip s.toList with
  | '+' :: rest => (pyUnsigned rest).map (fun n => (n : Int))
  | '-' :: rest => (pyUnsigned rest).map (fun n => -(n : Int))
  | cs => (pyUnsigned cs).map (fun n => (n : Int))

/-- The message of the `ValueError` raised by `int()` on a non-numeric
string, as caught and stringified by `process_user_query` (CPython wraps
the offending literal in quotes; the quotes are elided here). -/
def invalid_int_message (s : String) : String :=
  "invalid literal for int() with base 10: " ++ s

/-! ## process_user_query (double.py lines 193-221, new-frontend.py
lines 417-445; the two copies are identical) -/

/-- The external backends reached by `process_user_query`: thread creation,
message submission, and running an assistant (by id) on a thread, each of
which may raise. `run_reply thread aid` is the text returned by
`run_assistant(client, thread, aid)`. -/
structure Backend where
  create_thread : Except String Nat
  send_message : Nat → String → Except String Unit
  run_reply : Nat → String → Except String String
  labeler_id : String
  course_scheduler_id : String
  admin_info_id : String

/-- The body of the `try:` block of `process_user_query`: create a fresh
thread, send the user question, run the labeler, parse its reply with
`int()`, pick the downstream assistant (`label == 1` → course scheduler,
anything else → admin info), run it, and return
`(final_response, assistant_type)`. -/
def process_user_query_inner (b : Backend) (user_question : String) :
    Except String (String × String) := do
  let thread ← b.create_thread
  let _ ← b.send_message thread user_question
  let labelText ← b.run_reply thread b.labeler_id
  let label ← match python_int labelText with
    | some n => Except.ok n
    | none => Except.error (invalid_int_message labelText)
  let next_assistant :=
    if label = 1 then b.course_scheduler_id else b.admin_info_id
  let assistant_type :=
    if label = 1 then "Course Scheduler" else "Admin Info"
  let final_response ← b.run_reply thread next_assistant
  Except.ok (final_response, assistant_type)

/-- `process_user_query`: the `try:` body above with the blanket
`except Exception as e: return (f"Error processing query: {e}", "Error")`
handler wrapped around it. -/
def process_user_query (b : Backend) (user_question : String) :
    String × String :=
  match process_user_query_inner b user_question with
  | Except.ok r => r
  | Except.error e => ("Error processing query: " ++ e, "Error")

/-! ## Spreadsheet state, logger and header seeding -/

/-- A spreadsheet cell: the rows sent with `valueInputOption="RAW"` mix
strings and the integer lengths `len(user_message)`, `len(assistant_response)`. -/
inductive Cell where
  | str (s : String)
  | num (n : Nat)
deriving DecidableEq, Repr

/-- The `Logs` sheet: its rows, top row first.  Row 1 of the sheet is
`rows.head?`. -/
structure Sheet where
  rows : List (List Cell)
deriving DecidableEq, Repr

/-- The header row written by `initialize_sheet_if_needed` (double.py
lines 100-103; try2.py uses the same logic with six columns). -/
def HEADERS : List Cell :=
  [Cell.str "Timestamp", Cell.str "SUNet ID", Cell.str "User Message",
   Cell.str "Assistant Response", Cell.str "Message Length",
   Cell.str "Response Length", Cell.str "Assistant Type"]

/-- `service.spreadsheets().values().get(range="Logs!A1:G1")`: the response
carries a `values` key (`some`) exactly when the range is non-empty. -/
def get_header_range (s : Sheet) : Option (List (List Cell)) :=
  match s.rows.head? with
  | none => none
  | some r => if r = [] then none else some [r.take 7]

/-- `service.spreadsheets().values().update(range="Logs!A1:G1", body)`:
overwrite the first row of the sheet with the first row of the body. -/
def update_header_range (s : Sheet) (values : List (List Cell)) : Sheet :=
  match values.head? with
  | none => s
  | some h => { rows := h :: s.rows.drop 1 }

/-- `initialize_sheet_if_needed` (double.py lines 92-124, try2.py lines
104-135): skip when the service is unavailable; otherwise read
`Logs!A1:G1` and write `HEADERS` there only when the response has no
`values` key (empty header range). -/
def initialize_sheet_if_needed (service : Option Unit) (s : Sheet) : Sheet :=
  match service with
  | none => s
  | some _ =>
    match get_header_range s with
    | none => update_header_range s [HEADERS]
    | some _ => s

/-- The row data built by `log_interaction` (double.py lines 60-70,
new-frontend.py lines 240-250): timestamp, SUNet id, user message, raw
assistant response, `len(user_message)`, `len(assistant_response)`,
assistant type. -/
def make_log_row (current_time sunet_id user_message assistant_response
    assistant_type : String) : List Cell :=
  [Cell.str current_time, Cell.str sunet_id, Cell.str user_message,
   Cell.str assistant_response, Cell.num user_message.length,
   Cell.num assistant_response.length, Cell.str assistant_type]

/-- Whether the `values().append(...).execute()` call of `log_interaction`
succeeds or raises (backend outage, bad credentials, ...). -/
inductive AppendResult where
  | ok
  | failure (msg : String)
deriving DecidableEq, Repr

/-- `log_interaction` (double.py lines 45-90, new-frontend.py lines
224-271): returns `False` immediately when the sheets service is `None`;
otherwise attempts the append inside a `try:` whose `except` returns
`False`, so the call never raises.  Returns `True` exactly when the append
succeeded, in which case the row is appended to the sheet. -/
def log_interaction (service : Option Unit) (append_result : AppendResult)
    (s : Sheet) (row : List Cell) : Bool × Sheet :=
  match service with
  | none => (false, s)
  | some _ =>
    match append_result with
    | AppendResult.ok => (true, { rows := s.rows ++ [row] })
    | AppendResult.failure _ => (false, s)

/-! ## Login gate -/

/-- A chat message kept in `st.session_state.messages`. -/
structure ChatMsg where
  role : String
  content : String
deriving DecidableEq, Repr

/-- The per-session streamlit state: the `authenticated` flag, the stored
`sunet_id`, and the chat history. -/
structure SessionState where
  authenticated : Bool
  sunet_id : Option String
  messages : List ChatMsg
deriving DecidableEq, Repr

/-- `validate_sunet` of double.py (lines 126-128) and new-frontend.py
(lines 305-307): a placeholder that accepts everything. -/
def validate_sunet (_sunet_id : String) : Bool := true

/-- `validate_sunet` of try2.py (lines 137-145): rejects the empty string,
accepts everything else. -/
def try2_validate_sunet (sunet_id : String) : Bool :=
  if sunet_id = "" then false else true

/-- The login-form submit handler of double.py `login_page` (lines
134-144): the typed input is `.strip()`-ped, validated, and on success the
session becomes authenticated with the stripped id stored. -/
def login_submit (st : SessionState) (input : String) : SessionState :=
  let sunet_id := py_strip_str input
  if validate_sunet sunet_id then
    { st with authenticated := true, sunet_id := some sunet_id }
  else st

/-- The login-form submit handler of try2.py `login_page` (lines 152-162),
identical except that it uses try2's `validate_sunet`. -/
def try2_login_submit (st : SessionState) (input : String) : SessionState :=
  let sunet_id := py_strip_str input
  if try2_validate_sunet sunet_id then
    { st with authenticated := true, sunet_id := some sunet_id }
  else st

/-! ## Response cleaning in the styled variant (new-frontend.py) -/

/-- Consume one char from the front, requiring it to equal `c`. -/
def expectChar (c : Char) : List Char → Option (List Char)
  | d :: rest => if d = c then some rest else none
  | [] => none

/-- Consume one or more ASCII decimal digits from the front (the `\d+` of
the marker regex). -/
def dropDigits1 : List Char → Option (List Char)
  | c :: rest =>
    if c.isDigit then some (rest.dropWhile Char.isDigit) else none
  | [] => none

/-- Match the regex `【\d+:\d+†source】` of new-frontend.py line 589 at the
start of the character list, returning what follows the match. -/
def marker_suffix (cs : List Char) : Option (List Char) :=
  (expectChar '【' cs).bind fun cs1 =>
  (dropDigits1 cs1).bind fun cs2 =>
  (expectChar ':' cs2).bind fun cs3 =>
  (dropDigits1 cs3).bind fun cs4 =>
  (expectChar '†' cs4).bind fun cs5 =>
  (expectChar 's' cs5).bind fun cs6 =>
  (expectChar 'o' cs6).bind fun cs7 =>
  (expectChar 'u' cs7).bind fun cs8 =>
  (expectChar 'r' cs8).bind fun cs9 =>
  (expectChar 'c' cs9).bind fun cs10 =>
  (expectChar 'e' cs10).bind fun cs11 =>
  expectChar '】' cs11

/-- `re.sub(r'【\d+:\d+†source】', '', _)`: left-to-right, non-overlapping
removal of every marker match.  Fuel-indexed; a successful marker match
consumes at least one character, so `fuel = cs.length` (as used in
`remove_source_markers`) never runs out before the scan is finished. -/
def remove_source_markers_aux : Nat → List Char → List Char
  | 0, cs => cs
  | _ + 1, [] => []
  | fuel + 1, c :: rest =>
    match marker_suffix (c :: rest) with
    | some rest2 => remove_source_markers_aux fuel rest2
    | none => c :: remove_source_markers_aux fuel rest

/-- Does the regex `【\d+:\d+†source】` match anywhere in the list? -/
def contains_marker : List Char → Bool
  | [] => false
  | c :: rest =>
    match marker_suffix (c :: rest) with
    | some _ => true
    | none => contains_marker rest

/-- `str.replace(pat, "")` for a non-empty pattern: remove the
left-to-right non-overlapping occurrences of `pat`.  Fuel-indexed with the
same convention as `remove_source_markers_aux`. -/
def remove_occurrences_aux (pat : List Char) : Nat → List Char → List Char
  | 0, cs => cs
  | _ + 1, [] => []
  | fuel + 1, c :: rest =>
    if pat.isPrefixOf (c :: rest) then
      remove_occurrences_aux pat fuel ((c :: rest).drop pat.length)
    else c :: remove_occurrences_aux pat fuel rest

/-- The style tag removed by new-frontend.py line 590. -/
def STYLE_TAG : List Char := "<userStyle>Normal</userStyle>".toList

/-- The response clean-up of new-frontend.py `main_app` lines 589-591:
strip source-citation markers, remove the style tag, strip whitespace. -/
def clean_response (response : String) : String :=
  String.mk (py_strip (remove_occurrences_aux STYLE_TAG
    (remove_source_markers_aux response.toList.length response.toList).length
    (remove_source_markers_aux response.toList.length response.toList)))

/-- The post-run handling of new-frontend.py `main_app` lines 582-604:
the cleaned response is appended to the chat history shown to the user,
while `log_interaction` is called with the RAW response (and therefore a
row carrying the raw text and its length). -/
def nf_handle_response (messages : List ChatMsg)
    (prompt response sunet_id current_time assistant_type : String)
    (service : Option Unit) (append_result : AppendResult) (sheet : Sheet) :
    List ChatMsg × Bool × Sheet :=
  let cleaned := clean_response response
  let messages2 := messages ++ [{ role := "assistant", content := cleaned }]
  let logged := log_interaction service append_result sheet
    (make_log_row current_time sunet_id prompt response assistant_type)
  (messages2, logged.1, logged.2)

/-! ## Helper lemmas -/

/-- Dropping a prefix never lengthens a list. -/
theorem length_dropWhile_le (p : Char → Bool) (l : List Char) :
    (l.dropWhile p).length ≤ l.length := by
  induction l with
  | nil => simp
  | cons a t ih =>
    by_cases h : p a
    · simp [List.dropWhile, h]; omega
    · simp [List.dropWhile, h]

theorem expectChar_length {c : Char} {cs rest : List Char}
    (h : expectChar c cs = some rest) : rest.length < cs.length := by
  cases cs with
  | nil => simp [expectChar] at h
  | cons d t =>
    by_cases hd : d = c
    · simp [expectChar, hd] at h
      simp [← h]
    · simp [expectChar, hd] at h

theorem dropDigits1_length {cs rest : List Char}
    (h : dropDigits1 cs = some rest) : rest.length < cs.length := by
  cases cs with
  | nil => simp [dropDigits1] at h
  | cons d t =>
    by_cases hd : d.isDigit
    · simp [dropDigits1, hd] at h
      have := length_dropWhile_le Char.isDigit t
      simp [← h]
      omega
    · simp [dropDigits1, hd] at h

/-- A successful marker match consumes at least one character. -/
theorem marker_suffix_length {cs rest : List Char}
    (h : marker_suffix cs = some rest) : rest.length < cs.length := by
  simp only [marker_suffix, Option.bind_eq_some] at h
  obtain ⟨c1, h1, c2, h2, c3, h3, c4, h4, c5, h5, c6, h6, c7, h7, c8, h8,
    c9, h9, c10, h10, c11, h11, h12⟩ := h
  have := expectChar_length h1
  have := dropDigits1_length h2
  have := expectChar_length h3
  have := dropDigits1_length h4
  have := expectChar_length h5
  have := expectChar_length h6
  have := expectChar_length h7
  have := expectChar_length h8
  have := expectChar_length h9
  have := expectChar_length h10
  have := expectChar_length h11
  have := expectChar_length h12
  omega

/-- Marker removal never lengthens the text. -/
theorem rsm_aux_length_le (fuel : Nat) : ∀ cs : List Char,
    (remove_source_markers_aux fuel cs).length ≤ cs.length := by
  induction fuel with
  | zero => intro cs; simp [remove_source_markers_aux]
  | succ n ih =>
    intro cs
    cases cs with
    | nil => simp [remove_source_markers_aux]
    | cons c rest =>
      cases h : marker_suffix (c :: rest) with
      | some rest2 =>
        have h1 := marker_suffix_length h
        have h2 := ih rest2
        simp only [remove_source_markers_aux, h]
        omega
      | none =>
        have h2 := ih rest
        simp only [remove_source_markers_aux, h, List.length_cons]
        omega

/-- Marker removal strictly shortens a text in which the marker regex
matches somewhere (given enough fuel, as used in `clean_response`). -/
theorem rsm_aux_length_lt (fuel : Nat) : ∀ cs : List Char,
    contains_marker cs = true → cs.length ≤ fuel →
    (remove_source_markers_aux fuel cs).length < cs.length := by
  induction fuel with
  | zero =>
    intro cs hc hf
    cases cs with
    | nil => simp [contains_marker] at hc
    | cons c rest => simp at hf
  | succ n ih =>
    intro cs hc hf
    cases cs with
    | nil => simp [contains_marker] at hc
    | cons c rest =>
      cases h : marker_suffix (c :: rest) with
      | some rest2 =>
        have h1 := marker_suffix_length h
        have h2 := rsm_aux_length_le n rest2
        simp only [remove_source_markers_aux, h]
        omega
      | none =>
        have hc2 : contains_marker rest = true := by
          simpa [contains_marker, h] using hc
        have hf2 : rest.length ≤ n := by
          simp at hf; omega
        have h2 := ih rest hc2 hf2
        simp only [remove_source_markers_aux, h, List.length_cons]
        omega

/-- Occurrence removal never lengthens the text. -/
theorem roa_length_le (pat : List Char) (fuel : Nat) : ∀ cs : List Char,
    (remove_occurrences_aux pat fuel cs).length ≤ cs.length := by
  induction fuel with
  | zero => intro cs; simp [remove_occurrences_aux]
  | succ n ih =>
    intro cs
    cases cs with
    | nil => simp [remove_occurrences_aux]
    | cons c rest =>
      by_cases hp : pat.isPrefixOf (c :: rest)
      · have h1 := ih ((c :: rest).drop pat.length)
        have h2 : ((c :: rest).drop pat.length).length ≤ (c :: rest).length := by
          simp [List.length_drop]
        simp only [remove_occurrences_aux, hp, if_true, List.length_cons] at *
        omega
      · have h1 := ih rest
        simp only [remove_occurrences_aux, hp, if_false, List.length_cons,
          Bool.false_eq_true, ite_false] at *
        omega

/-- Whitespace stripping never lengthens the text. -/
theorem py_strip_length_le (cs : List Char) : (py_strip cs).length ≤ cs.length := by
  unfold py_strip
  have h1 := length_dropWhile_le Char.isWhitespace cs
  have h2 := length_dropWhile_le Char.isWhitespace
    ((cs.dropWhile Char.isWhitespace).reverse)
  simp only [List.length_reverse] at *
  omega

/-- `dropWhile` walks past a prefix every element of which satisfies the
predicate. -/
theorem dropWhile_append_of_forall {α : Type} (p : α → Bool) (l1 l2 : List α)
    (h : ∀ x ∈ l1, p x = true) :
    (l1 ++ l2).dropWhile p = l2.dropWhile p := by
  induction l1 with
  | nil => simp
  | cons a t ih =>
    have ha := h a (by simp)
    simp only [List.cons_append, List.dropWhile_cons, ha, if_true]
    exact ih (fun x hx => h x (by simp [hx]))

/-! ## Claim theorems -/

/-- C1: in the two-hop routed variant, when the labeler reply parses (via
Python `int()`) to 1, `process_user_query` forwards the question to the
course-scheduler assistant (the returned reply is whatever running the
course-scheduler id yields) and returns category "Course Scheduler"; when
it parses to any other integer, the question goes to the admin-info
assistant with category "Admin Info". -/
theorem process_user_query_routes_by_label (b : Backend) (t : Nat)
    (q s r : String)
    (hct : b.create_thread = Except.ok t)
    (hsm : b.send_message t q = Except.ok ())
    (hlab : b.run_reply t b.labeler_id = Except.ok s) :
    (python_int s = some 1 →
      b.run_reply t b.course_scheduler_id = Except.ok r →
      process_user_query b q = (r, "Course Scheduler")) ∧
    (∀ n : Int, python_int s = some n → n ≠ 1 →
      b.run_reply t b.admin_info_id = Except.ok r →
      process_user_query b q = (r, "Admin Info")) := by
  constructor
  · intro hp hsr
    simp [process_user_query, process_user_query_inner, bind, Except.bind,
      hct, hsm, hlab, hp, hsr]
  · intro n hp hn har
    simp [process_user_query, process_user_query_inner, bind, Except.bind,
      hct, hsm, hlab, hp, hn, har]

/-- Witness for C1: a concrete backend whose labeler answers "1" routes to
the scheduler, and one whose labeler answers "2" routes to admin info. -/
theorem process_user_query_routes_by_label_witness :
    process_user_query
      { create_thread := Except.ok 0,
        send_message := fun _ _ => Except.ok (),
        run_reply := fun _ aid =>
          if aid = "labeler" then Except.ok "1"
          else Except.ok ("reply-" ++ aid),
        labeler_id := "labeler", course_scheduler_id := "scheduler",
        admin_info_id := "admin" } "What classes should I take?" =
      ("reply-scheduler", "Course Scheduler") ∧
    process_user_query
      { create_thread := Except.ok 0,
        send_message := fun _ _ => Except.ok (),
        run_reply := fun _ aid =>
          if aid = "labeler" then Except.ok "2"
          else Except.ok ("reply-" ++ aid),
        labeler_id := "labeler", course_scheduler_id := "scheduler",
        admin_info_id := "admin" } "When is the add deadline?" =
      ("reply-admin", "Admin Info") :=
  ⟨(process_user_query_routes_by_label _ 0 _ "1" "reply-scheduler"
      rfl rfl rfl).1 (by decide) rfl,
   (process_user_query_routes_by_label _ 0 _ "2" "reply-admin"
      rfl rfl rfl).2 2 (by decide) (by decide) rfl⟩

/-- C2 counterexample: the claim says every polling loop raises on status
"failed" and keeps polling on any status other than "completed"/"failed",
but the try2.py `main_app` loop (one of the claim's cited loops) exits
normally (`some 0`: it falls through to the message fetch, raising
nothing) as soon as the status leaves {"queued", "in_progress"} — in
particular on "failed" and on "cancelled" at the very first poll — while
`run_assistant`'s loop is indeed still polling (`none`) on "cancelled". -/
theorem try2_poll_exits_normally_counterexample :
    try2_poll (fun _ => "failed") 5 0 = some 0 ∧
    try2_poll (fun _ => "cancelled") 5 0 = some 0 ∧
    run_assistant_poll (fun _ => "cancelled") 5 0 = none :=
  ⟨rfl, rfl, rfl⟩

/-- C2 amended: the `run_assistant` polling loop (double.py,
new-frontend.py) treats exactly "completed" (normal return) and "failed"
(raise) as terminal and re-polls on any other status; the try2.py
`main_app` loop instead keeps polling only while the status is "queued" or
"in_progress", and exits normally — without raising — on any other status,
including "failed". -/
theorem polling_loops_terminal_statuses (status : Nat → String) (fuel k : Nat) :
    (status k = "completed" →
      run_assistant_poll status (fuel + 1) k = some (PollOutcome.completedAt k)) ∧
    (status k = "failed" →
      run_assistant_poll status (fuel + 1) k = some (PollOutcome.failedAt k)) ∧
    (status k ≠ "completed" → status k ≠ "failed" →
      run_assistant_poll status (fuel + 1) k = run_assistant_poll status fuel (k + 1)) ∧
    ((status k = "queued" ∨ status k = "in_progress") →
      try2_poll status (fuel + 1) k = try2_poll status fuel (k + 1)) ∧
    (status k ≠ "queued" → status k ≠ "in_progress" →
      try2_poll status (fuel + 1) k = some k) := by
  refine ⟨?_, ?_, ?_, ?_, ?_⟩
  · intro h; simp [run_assistant_poll, h]
  · intro h; simp [run_assistant_poll, h]
  · intro h1 h2; simp [run_assistant_poll, h1, h2]
  · intro h; rcases h with h | h <;> simp [try2_poll, h]
  · intro h1 h2; simp [try2_poll, h1, h2]

/-- Witness for the amended C2, at concrete statuses. -/
theorem polling_loops_terminal_statuses_witness :
    run_assistant_poll (fun _ => "completed") 3 0 = some (PollOutcome.completedAt 0) ∧
    run_assistant_poll (fun _ => "failed") 3 0 = some (PollOutcome.failedAt 0) ∧
    run_assistant_poll (fun _ => "in_progress") 3 0 =
      run_assistant_poll (fun _ => "in_progress") 2 1 ∧
    try2_poll (fun _ => "queued") 3 0 = try2_poll (fun _ => "queued") 2 1 ∧
    try2_poll (fun _ => "expired") 3 0 = some 0 :=
  ⟨(polling_loops_terminal_statuses (fun _ => "completed") 2 0).1 rfl,
   (polling_loops_terminal_statuses (fun _ => "failed") 2 0).2.1 rfl,
   (polling_loops_terminal_statuses (fun _ => "in_progress") 2 0).2.2.1
     (by decide) (by decide),
   (polling_loops_terminal_statuses (fun _ => "queued") 2 0).2.2.2.1
     (Or.inl rfl),
   (polling_loops_terminal_statuses (fun _ => "expired") 2 0).2.2.2.2
     (by decide) (by decide)⟩

/-- C3: every exception raised inside the round-trip of
`process_user_query` (thread creation, message submission, labeler parse,
runs, reply fetch — all the failure points of the modelled `try:` body) is
caught: the function always returns, and when the body raised `e` it
returns the error-message string paired with category "Error". -/
theorem process_user_query_catches_exceptions (b : Backend) (q : String) :
    (∃ e, process_user_query_inner b q = Except.error e ∧
      process_user_query b q = ("Error processing query: " ++ e, "Error")) ∨
    (∃ r, process_user_query_inner b q = Except.ok r ∧
      process_user_query b q = r) := by
  cases h : process_user_query_inner b q with
  | ok r => exact Or.inr ⟨r, rfl, by simp [process_user_query, h]⟩
  | error e => exact Or.inl ⟨e, rfl, by simp [process_user_query, h]⟩

/-- C4: if the polled status is never "completed" and never "failed", the
`run_assistant` polling loop never terminates — after any number `fuel` of
polls it is still running (`none`) and has slept exactly 500 ms per poll,
with no maximum wait, backoff or cancellation path in the model. -/
theorem run_assistant_poll_unbounded (status : Nat → String)
    (h : ∀ n, status n ≠ "completed" ∧ status n ≠ "failed") :
    ∀ fuel k, run_assistant_poll status fuel k = none ∧
      run_assistant_wait_ms status fuel k = 500 * fuel := by
  intro fuel
  induction fuel with
  | zero => intro k; exact ⟨rfl, by simp [run_assistant_wait_ms]⟩
  | succ n ih =>
    intro k
    constructor
    · simp [run_assistant_poll, (h k).1, (h k).2, (ih (k + 1)).1]
    · simp [run_assistant_wait_ms, (h k).1, (h k).2, (ih (k + 1)).2]
      ring

/-- Witness for C4: a backend stuck on "in_progress" is still polling
after 3 polls, having slept 1500 ms. -/
theorem run_assistant_poll_unbounded_witness :
    run_assistant_poll (fun _ => "in_progress") 3 0 = none ∧
    run_assistant_wait_ms (fun _ => "in_progress") 3 0 = 500 * 3 :=
  run_assistant_poll_unbounded (fun _ => "in_progress")
    (fun _ => ⟨by simp, by simp⟩) 3 0

/-- C5 counterexample: on a thread holding the user question followed by
two assistant messages, the try2.py fetch (one of the claim's cited
fetches) returns the text of the FIRST message created after the user
message, not the text of the newest message in the thread, which is what
the `run_assistant` fetch returns. -/
theorem try2_fetch_not_newest_counterexample :
    try2_fetch [⟨0, "question"⟩, ⟨1, "first-reply"⟩, ⟨2, "second-reply"⟩] 0
      = some "first-reply" ∧
    run_assistant_fetch [⟨0, "question"⟩, ⟨1, "first-reply"⟩, ⟨2, "second-reply"⟩]
      = some "second-reply" ∧
    ("first-reply" : String) ≠ "second-reply" :=
  ⟨rfl, rfl, by decide⟩

/-- C5 amended: on completion, the `run_assistant` fetch (double.py,
new-frontend.py) returns the text of the newest message in the thread; the
try2.py `main_app` fetch instead returns the text of the first message
created after the just-submitted user message (and nothing when no such
message exists). -/
theorem fetch_newest_vs_first_after (t : List Msg) (m : Msg)
    (pre : List Msg) (um : Msg) (post : List Msg)
    (hpre : ∀ x ∈ pre, x.id ≠ um.id) :
    run_assistant_fetch (t ++ [m]) = some m.text ∧
    try2_fetch (pre ++ um :: post) um.id = post.head?.map Msg.text := by
  constructor
  · have hg : (t ++ [m]).getLast? = some m := by simp
    simp [run_assistant_fetch, list_desc_limit1, hg]
  · have h1 : (pre ++ um :: post).dropWhile (fun x => x.id != um.id) =
        (um :: post).dropWhile (fun x => x.id != um.id) :=
      dropWhile_append_of_forall _ pre (um :: post)
        (fun x hx => by simp [hpre x hx])
    have h2 : (um :: post).dropWhile (fun x => x.id != um.id) = um :: post := by
      simp [List.dropWhile_cons]
    simp [try2_fetch, list_asc_after, h1, h2]

/-- Witness for the amended C5, on concrete threads. -/
theorem fetch_newest_vs_first_after_witness :
    run_assistant_fetch ([⟨0, "q"⟩] ++ [⟨3, "newest"⟩]) = some "newest" ∧
    try2_fetch ([⟨0, "earlier"⟩] ++ ⟨1, "user-q"⟩ :: [⟨2, "a1"⟩, ⟨3, "a2"⟩]) 1
      = some "a1" :=
  have h := fetch_newest_vs_first_after [⟨0, "q"⟩] ⟨3, "newest"⟩
    [⟨0, "earlier"⟩] ⟨1, "user-q"⟩ [⟨2, "a1"⟩, ⟨3, "a2"⟩]
    (by intro x hx; simp at hx; simp [hx])
  ⟨h.1, h.2⟩

/-- C6: `log_interaction` never raises out of the call site: it returns
`false` when the sheets service is `None` or the append fails (leaving the
sheet untouched), returns `true` exactly when the append succeeds, and the
chat reply already appended to the session history by the caller is the
same whatever the logging outcome. -/
theorem log_interaction_best_effort (service : Option Unit)
    (ar : AppendResult) (sheet : Sheet) (row : List Cell)
    (messages : List ChatMsg)
    (prompt response sunet_id current_time assistant_type : String) :
    (service = none → log_interaction service ar sheet row = (false, sheet)) ∧
    (∀ m, ar = AppendResult.failure m →
      log_interaction service ar sheet row = (false, sheet)) ∧
    ((log_interaction service ar sheet row).1 = true ↔
      service ≠ none ∧ ar = AppendResult.ok) ∧
    (nf_handle_response messages prompt response sunet_id current_time
        assistant_type service ar sheet).1 =
      messages ++ [{ role := "assistant", content := clean_response response }] := by
  refine ⟨?_, ?_, ?_, rfl⟩
  · intro h; simp [log_interaction, h]
  · intro m h; cases service <;> simp [log_interaction, h]
  · cases service <;> cases ar <;> simp [log_interaction]

/-- Witness for C6: a missing service and a failed append both yield
`false` with the sheet unchanged, and the chat history still carries the
reply. -/
theorem log_interaction_best_effort_witness :
    log_interaction none AppendResult.ok (Sheet.mk []) [] = (false, Sheet.mk []) ∧
    log_interaction (some ()) (AppendResult.failure "backend outage")
      (Sheet.mk []) [] = (false, Sheet.mk []) ∧
    (nf_handle_response [] "q" "a" "jsmith" "2024-01-01" "Admin Info"
        none AppendResult.ok (Sheet.mk [])).1 =
      [{ role := "assistant", content := clean_response "a" }] :=
  ⟨(log_interaction_best_effort none AppendResult.ok (Sheet.mk []) []
      [] "q" "a" "jsmith" "2024-01-01" "Admin Info").1 rfl,
   (log_interaction_best_effort (some ()) (AppendResult.failure "backend outage")
      (Sheet.mk []) [] [] "q" "a" "jsmith" "2024-01-01" "Admin Info").2.1
      "backend outage" rfl,
   (log_interaction_best_effort none AppendResult.ok (Sheet.mk [])
      [] [] "q" "a" "jsmith" "2024-01-01" "Admin Info").2.2.2⟩

/-- C7: header seeding is idempotent — `initialize_sheet_if_needed` leaves
a sheet whose header range is non-empty unchanged, running it twice equals
running it once, and running it twice against an initially empty sheet
leaves exactly one header row. -/
theorem initialize_sheet_idempotent (service : Option Unit) (s : Sheet) :
    initialize_sheet_if_needed service (initialize_sheet_if_needed service s)
      = initialize_sheet_if_needed service s ∧
    (get_header_range s ≠ none → initialize_sheet_if_needed service s = s) ∧
    (initialize_sheet_if_needed (some ())
        (initialize_sheet_if_needed (some ()) (Sheet.mk []))).rows.count HEADERS
      = 1 := by
  have hne : (HEADERS = ([] : List Cell)) = False := by simp [HEADERS]
  refine ⟨?_, ?_, by rfl⟩
  · cases service with
    | none => rfl
    | some u =>
      cases h : get_header_range s with
      | some v => simp [initialize_sheet_if_needed, h]
      | none =>
        have hg : get_header_range (update_header_range s [HEADERS]) =
            some [HEADERS.take 7] := by
          simp [get_header_range, update_header_range, hne]
        simp [initialize_sheet_if_needed, h, hg]
  · intro h
    cases service with
    | none => rfl
    | some u =>
      cases hh : get_header_range s with
      | none => exact absurd hh h
      | some v => simp [initialize_sheet_if_needed, hh]

/-- Witness for C7: a sheet already carrying the header row is unchanged,
and double initialization of an empty sheet yields one header row. -/
theorem initialize_sheet_idempotent_witness :
    initialize_sheet_if_needed (some ()) (Sheet.mk [HEADERS]) = Sheet.mk [HEADERS] ∧
    (initialize_sheet_if_needed (some ())
        (initialize_sheet_if_needed (some ()) (Sheet.mk []))).rows.count HEADERS
      = 1 :=
  ⟨(initialize_sheet_idempotent (some ()) (Sheet.mk [HEADERS])).2.1 (by decide),
   (initialize_sheet_idempotent (some ()) (Sheet.mk [])).2.2⟩

/-- C8 counterexample: the whitespace-only identifier " " is a non-empty
string submitted on the login form, yet in the try2.py variant (one of the
claim's cited sources) the form strips it to "" before validating, so
`validate_sunet` rejects it and the session stays unauthenticated. -/
theorem try2_login_whitespace_counterexample :
    (" " : String) ≠ "" ∧
    try2_validate_sunet (py_strip_str " ") = false ∧
    try2_login_submit { authenticated := false, sunet_id := none, messages := [] } " "
      = { authenticated := false, sunet_id := none, messages := [] } :=
  ⟨by decide, by decide, by decide⟩

/-- C8 amended: for every submitted identifier whose whitespace-stripped
value is non-empty, both variants of `validate_sunet` accept the stripped
identifier, and one form submission moves the session to
authenticated-with-stored-identifier; resubmitting is idempotent, so each
successful submission performs exactly this one transition. -/
theorem login_nonempty_stripped_authenticates (st : SessionState) (input : String)
    (h : py_strip_str input ≠ "") :
    validate_sunet (py_strip_str input) = true ∧
    try2_validate_sunet (py_strip_str input) = true ∧
    login_submit st input =
      { st with authenticated := true, sunet_id := some (py_strip_str input) } ∧
    try2_login_submit st input =
      { st with authenticated := true, sunet_id := some (py_strip_str input) } ∧
    login_submit (login_submit st input) input = login_submit st input ∧
    try2_login_submit (try2_login_submit st input) input
      = try2_login_submit st input := by
  have hv : try2_validate_sunet (py_strip_str input) = true := by
    simp [try2_validate_sunet, h]
  refine ⟨rfl, hv, rfl, ?_, rfl, ?_⟩
  · simp [try2_login_submit, hv]
  · simp [try2_login_submit, hv]

/-- Witness for the amended C8, with the identifier "jsmith". -/
theorem login_nonempty_stripped_authenticates_witness :
    validate_sunet (py_strip_str "jsmith") = true ∧
    try2_validate_sunet (py_strip_str "jsmith") = true ∧
    login_submit { authenticated := false, sunet_id := none, messages := [] }
        "jsmith"
      = { authenticated := true, sunet_id := some (py_strip_str "jsmith"),
          messages := [] } ∧
    try2_login_submit { authenticated := false, sunet_id := none, messages := [] }
        "jsmith"
      = { authenticated := true, sunet_id := some (py_strip_str "jsmith"),
          messages := [] } :=
  have h := login_nonempty_stripped_authenticates
    { authenticated := false, sunet_id := none, messages := [] } "jsmith"
    (by decide)
  ⟨h.1, h.2.1, h.2.2.1, h.2.2.2.1⟩

/-- C9: when the labeler reply is not parseable by `int()`, the parse
failure is not recovered by defaulting the routing decision: the query
reaches neither downstream branch — `process_user_query` surfaces the
`ValueError` through its generic handler with category "Error", not
"Course Scheduler" or "Admin Info". -/
theorem labeler_parse_failure_not_defaulted (b : Backend) (t : Nat) (q s : String)
    (hct : b.create_thread = Except.ok t)
    (hsm : b.send_message t q = Except.ok ())
    (hlab : b.run_reply t b.labeler_id = Except.ok s)
    (hparse : python_int s = none) :
    process_user_query b q =
      ("Error processing query: " ++ invalid_int_message s, "Error") ∧
    (process_user_query b q).2 ≠ "Course Scheduler" ∧
    (process_user_query b q).2 ≠ "Admin Info" := by
  have hmain : process_user_query b q =
      ("Error processing query: " ++ invalid_int_message s, "Error") := by
    simp [process_user_query, process_user_query_inner, bind, Except.bind,
      hct, hsm, hlab, hparse]
  refine ⟨hmain, ?_, ?_⟩ <;> simp [hmain]

/-- Witness for C9: a labeler that answers "unclear" yields the "Error"
category, not a routed branch. -/
theorem labeler_parse_failure_not_defaulted_witness :
    process_user_query
      { create_thread := Except.ok 0,
        send_message := fun _ _ => Except.ok (),
        run_reply := fun _ aid =>
          if aid = "labeler" then Except.ok "unclear"
          else Except.ok ("reply-" ++ aid),
        labeler_id := "labeler", course_scheduler_id := "scheduler",
        admin_info_id := "admin" } "Tell me about WAYS" =
      ("Error processing query: " ++ invalid_int_message "unclear", "Error") :=
  (labeler_parse_failure_not_defaulted _ 0 _ "unclear" rfl rfl rfl (by decide)).1

/-- C10: in the styled variant, the logged row carries the raw reply and a
length computed from it, while the chat history gets the cleaned reply
(markers and style tags removed, whitespace stripped); whenever the raw
reply contains a source marker the cleaned text is strictly shorter than —
and hence different from — the logged text. -/
theorem nf_logs_raw_shows_cleaned (messages : List ChatMsg) (sheet : Sheet)
    (prompt response sunet_id current_time assistant_type : String)
    (h : contains_marker response.toList = true) :
    nf_handle_response messages prompt response sunet_id current_time
        assistant_type (some ()) AppendResult.ok sheet =
      (messages ++ [{ role := "assistant", content := clean_response response }],
       true,
       Sheet.mk (sheet.rows ++
         [make_log_row current_time sunet_id prompt response assistant_type])) ∧
    (clean_response response).length < response.length ∧
    clean_response response ≠ response := by
  have h1 : (remove_source_markers_aux response.toList.length
      response.toList).length < response.toList.length :=
    rsm_aux_length_lt response.toList.length response.toList h (le_refl _)
  have h2 := roa_length_le STYLE_TAG
    (remove_source_markers_aux response.toList.length response.toList).length
    (remove_source_markers_aux response.toList.length response.toList)
  have h3 := py_strip_length_le (remove_occurrences_aux STYLE_TAG
    (remove_source_markers_aux response.toList.length response.toList).length
    (remove_source_markers_aux response.toList.length response.toList))
  have hlen : (clean_response response).length < response.length := by
    show (py_strip (remove_occurrences_aux STYLE_TAG
      (remove_source_markers_aux response.toList.length response.toList).length
      (remove_source_markers_aux response.toList.length response.toList))).length
        < response.toList.length
    omega
  refine ⟨rfl, hlen, fun he => ?_⟩
  rw [he] at hlen
  exact lt_irrefl _ hlen

/-- Witness for C10: a concrete reply containing a source marker is logged
raw but shown cleaned, shorter. -/
theorem nf_logs_raw_shows_cleaned_witness :
    contains_marker "See the bulletin.【4:1†source】".toList = true ∧
    clean_response "See the bulletin.【4:1†source】"
      ≠ "See the bulletin.【4:1†source】" ∧
    (clean_response "See the bulletin.【4:1†source】").length <
      ("See the bulletin.【4:1†source】" : String).length :=
  have h := nf_logs_raw_shows_cleaned [] (Sheet.mk []) "q"
    "See the bulletin.【4:1†source】" "jsmith" "2024-01-01" "Admin Info"
    (by decide)
  ⟨by decide, h.2.2, h.2.1⟩
